import Mathlib

/-!
# webssh: session registry, session bridge and output relay

A shallow embedding of `web-ssh.go`.

* The registry (`sync.Map` used through `LoadOrStore` only) is an association
  list from session ids to `storeValue`s; a `go` statement that starts a bridge
  is the value a registration call returns.
* The bridge `server` is a loop over the messages the transport delivers.  The
  calls it makes on its collaborators (SSH library, the two endpoints) are
  recorded as `Event`s; what a fallible call answers is given by an `SSHCollab`,
  whose every answer may depend on the events so far and on the arguments.
* Deferred calls are kept on a stack and run last-in first-out when `server`
  returns.
* Calls on the logger are not modelled.
-/

namespace WebSSH

/-! ## Data -/

/-- A byte. -/
abbrev Byte := Fin 256

/-- A byte slice; also used for Go strings converted from byte slices. -/
abbrev Bytes := List Byte

/-- Identity of a `*websocket.Conn`. -/
abbrev WebsocketConn := Nat

/-- Identity of a `net.Conn`. -/
abbrev NetConn := Nat

/-- The endpoint pair `storeValue`; `none` is the nil pointer / nil interface. -/
structure storeValue where
  websocket : Option WebsocketConn
  conn : Option NetConn
deriving DecidableEq, Repr

/-- The `store` field of `WebSSH`: session id to endpoint pair. -/
abbrev Store := List (String × storeValue)

/-! ## Session registry -/

/-- The `sync.Map.LoadOrStore` operation: the existing value and `true` when the
key is present, otherwise the given value is stored and returned with `false`. -/
def LoadOrStore (store : Store) (id : String) (v : storeValue) :
    Store × storeValue × Bool :=
  match store.lookup id with
  | some old => (store, old, true)
  | none => ((id, v) :: store, v, false)

/-- The method `AddWebsocket`: the new store, and the pair a bridge is started
with when one is started. -/
def AddWebsocket (store : Store) (id : String) (conn : WebsocketConn) :
    Store × Option storeValue :=
  match LoadOrStore store id { websocket := some conn, conn := none } with
  | (store1, v, loaded) =>
    if !loaded then (store1, none)
    else
      let value := { v with websocket := some conn }
      (store1, some value)

/-- The method `AddSSHConn`: the new store, and the pair a bridge is started
with when one is started. -/
def AddSSHConn (store : Store) (id : String) (conn : NetConn) :
    Store × Option storeValue :=
  match LoadOrStore store id { websocket := none, conn := some conn } with
  | (store1, v, loaded) =>
    if !loaded then (store1, none)
    else
      let value := { v with conn := some conn }
      (store1, some value)

/-- A registration call made by the listener. -/
inductive Call where
  | addWebsocket (id : String) (conn : WebsocketConn)
  | addSSHConn (id : String) (conn : NetConn)
deriving DecidableEq, Repr

/-- The session id a call is for. -/
def Call.id : Call → String
  | .addWebsocket id _ => id
  | .addSSHConn id _ => id

/-- One registration call on a store. -/
def Call.apply (store : Store) : Call → Store × Option storeValue
  | .addWebsocket id conn => AddWebsocket store id conn
  | .addSSHConn id conn => AddSSHConn store id conn

/-- A sequence of registration calls, one after the other: the final store and
the bridges started, oldest first, each with the id it was started for. -/
def runCalls : Store → List Call → Store × List (String × storeValue)
  | store, [] => (store, [])
  | store, c :: cs =>
    match c.apply store with
    | (store1, started) =>
      match runCalls store1 cs with
      | (store2, rest) =>
        match started with
        | some value => (store2, (c.id, value) :: rest)
        | none => (store2, rest)

/-- The bridges started for one session id. -/
def launchedFor (id : String) (l : List (String × storeValue)) : List storeValue :=
  (l.filter (fun p => p.1 == id)).map Prod.snd

/-! ## Message envelope -/

/-- Modelled from the spec: the type `messageType` and its constants, declared
in a file of the repository that is not under `src/` ("`type` is one of: `login`,
`password`, `publickey`, `stdin`, `resize`, `stdout`, `stderr`"). -/
inductive messageType where
  | messageTypeLogin
  | messageTypePassword
  | messageTypePublickey
  | messageTypeStdin
  | messageTypeResize
  | messageTypeStdout
  | messageTypeStderr
deriving DecidableEq, Repr

open messageType

/-- Modelled from the spec: the struct `message`, declared in a file of the
repository that is not under `src/` ("`{ type: MessageType, data: bytes, rows:
int, cols: int }`"); the Go field `Type` is written `Typ`. -/
structure message where
  Typ : messageType
  Data : Bytes
  Rows : Int
  Cols : Int
deriving DecidableEq, Repr

/-! ## Collaborators, events, errors -/

/-- The fields of `ssh.ClientConfig` that `server` sets: the user name and the
password credentials (`HostKeyCallback` is a constant). -/
structure ClientConfig where
  User : Bytes
  Auth : List Bytes
deriving DecidableEq, Repr

/-- A call made on a collaborator, with the answer where there is one.  An
`*ssh.Session` is identified by a number `s`, the count of sessions opened
before it; its stdin pipe carries the same number. -/
inductive Event where
  | NewClientConn (conn : NetConn) (config : ClientConfig) (ok : Bool)
  | NewSession (r : Option Nat)
  | RequestPty (s : Nat) (term : String) (h w : Nat) (speed : Nat)
  | StdinPipe (s : Nat) (ok : Bool)
  | StdoutPipe (s : Nat) (ok : Bool)
  | StderrPipe (s : Nat) (ok : Bool)
  | GoCopyToMessage (t : messageType) (s : Nat) (reader : Bool)
  | Shell (s : Nat) (ok : Bool)
  | Write (s : Nat) (data : Bytes) (ok : Bool)
  | WindowChange (s : Nat) (rows cols : Int) (ok : Bool)
  | SessionClose (s : Nat)
  | StdinClose (s : Nat)
  | ConnClose (c : NetConn)
  | WebsocketClose (w : WebsocketConn)
deriving DecidableEq, Repr

/-- The answers of the SSH library: whether each fallible call succeeds, given
the events so far and the arguments of the call. -/
structure SSHCollab where
  NewClientConn : List Event → NetConn → ClientConfig → Bool
  NewSession : List Event → Bool
  StdinPipe : List Event → Nat → Bool
  StdoutPipe : List Event → Nat → Bool
  StderrPipe : List Event → Nat → Bool
  Shell : List Event → Nat → Bool
  Write : List Event → Nat → Bytes → Bool
  WindowChange : List Event → Nat → Int → Int → Bool

/-- Error values: one returned by a collaborator call (named by the call),
`errors.New` and `errors.Wrap`. -/
inductive Error where
  | collab (call : String)
  | New (msg : String)
  | Wrap (cause : Error) (msg : String)
deriving DecidableEq, Repr

/-- A deferred call of `server`. -/
inductive Deferred where
  | websocketClose (w : WebsocketConn)
  | connClose (c : NetConn)
  | sessionClose (s : Nat)
  | stdinClose (s : Nat)
deriving DecidableEq, Repr

/-- The event of running a deferred call. -/
def Deferred.run : Deferred → Event
  | .websocketClose w => .WebsocketClose w
  | .connClose c => .ConnClose c
  | .sessionClose s => .SessionClose s
  | .stdinClose s => .StdinClose s

/-! ## Session bridge -/

/-- The local variables of `server`, with the events so far, the stack of
deferred calls (last deferred first) and the number of sessions opened. -/
structure State where
  config : ClientConfig
  session : Option Nat
  stdin : Option Nat
  defers : List Deferred
  trace : List Event
  nextSession : Nat
deriving DecidableEq, Repr

/-- Record an event. -/
def State.log (st : State) (e : Event) : State :=
  { st with trace := st.trace ++ [e] }

/-- Push a deferred call. -/
def State.defer (st : State) (d : Deferred) : State :=
  { st with defers := d :: st.defers }

/-- The method `newSSHXtermSession`.  The answer of `RequestPty` is discarded by
the code. -/
def newSSHXtermSession (ssh : SSHCollab) (buffSize : Nat) (conn : NetConn)
    (config : ClientConfig) (st : State) : Except Error Nat × State :=
  let ok := ssh.NewClientConn st.trace conn config
  let st := st.log (.NewClientConn conn config ok)
  if !ok then (.error (.Wrap (.collab "NewClientConn") "client"), st)
  else
    let ok := ssh.NewSession st.trace
    if !ok then
      (.error (.Wrap (.collab "NewSession") "session"), st.log (.NewSession none))
    else
      let s := st.nextSession
      let st := { st.log (.NewSession (some s)) with nextSession := s + 1 }
      let st := st.log (.RequestPty s "xterm" 40 80 buffSize)
      (.ok s, st)

/-- The method `transferOutput`.  When `StderrPipe` fails the wrapped error is
built and dropped, and the copier for standard error is still started, on a nil
reader. -/
def transferOutput (ssh : SSHCollab) (session : Nat) (st : State) :
    Option Error × State :=
  let ok := ssh.StdoutPipe st.trace session
  let st := st.log (.StdoutPipe session ok)
  if !ok then (some (.Wrap (.collab "StdoutPipe") "stdout"), st)
  else
    let ok := ssh.StderrPipe st.trace session
    let st := st.log (.StderrPipe session ok)
    let st := st.log (.GoCopyToMessage messageTypeStdout session true)
    let st := st.log (.GoCopyToMessage messageTypeStderr session ok)
    (none, st)

/-- What one pass through the body of the loop of `server` does after the
message is read. -/
inductive Outcome where
  | next (st : State)
  | ret (err : Error) (st : State)
deriving DecidableEq, Repr

/-- The `case messageTypePassword` branch of `server`. -/
def onPassword (ssh : SSHCollab) (buffSize : Nat) (conn : NetConn) (msg : message)
    (st : State) : Outcome :=
  let st := { st with config := { st.config with Auth := st.config.Auth ++ [msg.Data] } }
  match newSSHXtermSession ssh buffSize conn st.config st with
  | (.error err, st) => .ret (.Wrap err "password") { st with session := none }
  | (.ok s, st) =>
    let st := { st with session := some s }
    let st := st.defer (.sessionClose s)
    let ok := ssh.StdinPipe st.trace s
    let st := st.log (.StdinPipe s ok)
    if !ok then .ret (.Wrap (.collab "StdinPipe") "stdin") { st with stdin := none }
    else
      let st := { st with stdin := some s }
      let st := st.defer (.stdinClose s)
      match transferOutput ssh s st with
      | (some err, st) => .ret (.Wrap err "stdout & stderr") st
      | (none, st) =>
        let ok := ssh.Shell st.trace s
        let st := st.log (.Shell s ok)
        if !ok then .ret (.Wrap (.collab "Shell") "shell") st
        else .next st

/-- The body of the loop of `server` after a successful `ReadJSON`: the switch
on the type of the message. -/
def body (ssh : SSHCollab) (buffSize : Nat) (conn : NetConn) (msg : message)
    (st : State) : Outcome :=
  match msg.Typ with
  | messageTypeLogin => .next { st with config := { st.config with User := msg.Data } }
  | messageTypePassword => onPassword ssh buffSize conn msg st
  | messageTypePublickey => .ret (.New "no support publickey") st
  | messageTypeStdin =>
    match st.stdin with
    | none => .next st
    | some h =>
      let ok := ssh.Write st.trace h msg.Data
      let st := st.log (.Write h msg.Data ok)
      if !ok then .ret (.Wrap (.collab "Write") "write") st
      else .next st
  | messageTypeResize =>
    match st.session with
    | none => .next st
    | some s =>
      let ok := ssh.WindowChange st.trace s msg.Rows msg.Cols
      let st := st.log (.WindowChange s msg.Rows msg.Cols ok)
      if !ok then .ret (.Wrap (.collab "WindowChange") "resize") st
      else .next st
  | messageTypeStdout => .next st
  | messageTypeStderr => .next st

/-- The result of the loop: the error returned, the state at the return and the
number of `ReadJSON` calls made. -/
structure LoopResult where
  err : Error
  st : State
  reads : Nat
deriving DecidableEq, Repr

/-- The same result with `n` more `ReadJSON` calls counted. -/
def LoopResult.addReads (r : LoopResult) (n : Nat) : LoopResult :=
  { err := r.err, st := r.st, reads := r.reads + n }

/-- The loop of `server` on the messages the transport delivers, oldest first;
when they are used up `ReadJSON` fails. -/
def loop (ssh : SSHCollab) (buffSize : Nat) (conn : NetConn) :
    List message → State → LoopResult
  | [], st => { err := .Wrap (.collab "ReadJSON") "login", st := st, reads := 1 }
  | msg :: rest, st =>
    match body ssh buffSize conn msg st with
    | .ret err st1 => { err := err, st := st1, reads := 1 }
    | .next st1 =>
      (loop ssh buffSize conn rest st1).addReads 1

/-- The state of `server` when it enters its loop: the two deferred closes, an
empty config, no session and no stdin pipe. -/
def initState (w : WebsocketConn) (c : NetConn) : State :=
  { config := { User := [], Auth := [] }
    session := none
    stdin := none
    defers := [.connClose c, .websocketClose w]
    trace := []
    nextSession := 0 }

/-- What a run of `server` is observed to do: the error it returns, every call
on a collaborator in order, deferred calls included, and the number of
`ReadJSON` calls. -/
structure Run where
  err : Error
  events : List Event
  reads : Nat
deriving DecidableEq, Repr

/-- The method `server`.  With a nil endpoint in `value` the Go code panics:
`none`. -/
def server (ssh : SSHCollab) (buffSize : Nat) (value : storeValue)
    (msgs : List message) : Option Run :=
  match value.websocket, value.conn with
  | some w, some c =>
    let r := loop ssh buffSize c msgs (initState w c)
    some { err := r.err, events := r.st.trace ++ r.st.defers.map Deferred.run,
           reads := r.reads }
  | _, _ => none

/-! ## Output relay -/

/-- One scripted answer of an `io.Reader`: the bytes it has to deliver and
whether it reports an error. -/
structure ReadResult where
  data : Bytes
  err : Bool
deriving DecidableEq, Repr

/-- The call `r.Read(buff)`: at most `len(buff)` bytes are copied to the front of
the buffer (a scripted answer longer than the buffer is cut to its length); the
count, the error flag and the buffer afterwards. -/
def Read (r : ReadResult) (buff : Bytes) : Nat × Bool × Bytes :=
  let n := min r.data.length buff.length
  (n, r.err, r.data.take n ++ buff.drop n)

/-- The closure `copyToMessage` of `transferOutput` on a reader that answers as
scripted (and then never again): the `WriteJSON` calls it makes, each with its
answer.  `writeJSON` tells whether a write succeeds, given the earlier calls. -/
def copyToMessageLoop (writeJSON : List (message × Bool) → message → Bool)
    (t : messageType) : List ReadResult → Bytes → List (message × Bool) →
    List (message × Bool)
  | [], _, sent => sent
  | r :: rs, buff, sent =>
    match Read r buff with
    | (n, err, buff1) =>
      if err then sent
      else
        let msg : message := { Typ := t, Data := buff1.take n, Rows := 0, Cols := 0 }
        let ok := writeJSON sent msg
        if !ok then sent ++ [(msg, ok)]
        else copyToMessageLoop writeJSON t rs buff1 (sent ++ [(msg, ok)])

/-- The closure `copyToMessage` with its buffer of `buffSize` zero bytes. -/
def copyToMessage (writeJSON : List (message × Bool) → message → Bool)
    (buffSize : Nat) (t : messageType) (reads : List ReadResult) :
    List (message × Bool) :=
  copyToMessageLoop writeJSON t reads (List.replicate buffSize 0) []

/-! ## Predicates and sample collaborators used in the statements -/

/-- Neither a session nor a stdin pipe yet. -/
def State.unauthenticated (st : State) : Prop :=
  st.session = none ∧ st.stdin = none

instance (st : State) : Decidable st.unauthenticated := by
  unfold State.unauthenticated; infer_instance

/-- A message that arrives too early in the given state: `stdin` with no stdin
pipe, or `resize` with no session. -/
def premature (st : State) (msg : message) : Bool :=
  (msg.Typ == messageTypeStdin && st.stdin == none) ||
  (msg.Typ == messageTypeResize && st.session == none)

/-- Messages of type `login`, `stdin` or `resize`. -/
def beforePassword (msg : message) : Bool :=
  msg.Typ == messageTypeLogin || msg.Typ == messageTypeStdin ||
  msg.Typ == messageTypeResize

/-- Messages of type `login`. -/
def isLogin (msg : message) : Bool :=
  msg.Typ == messageTypeLogin

/-- Authentication attempts: calls of `ssh.NewClientConn`. -/
def Event.isAuthAttempt : Event → Bool
  | .NewClientConn _ _ _ => true
  | _ => false

/-- Calls of `Write` on a stdin pipe. -/
def Event.isWrite : Event → Bool
  | .Write _ _ _ => true
  | _ => false

/-- Calls of `StdinPipe`. -/
def Event.isStdinPipe : Event → Bool
  | .StdinPipe _ _ => true
  | _ => false

/-- Starts of a relay copier. -/
def Event.isGoCopy : Event → Bool
  | .GoCopyToMessage _ _ _ => true
  | _ => false

/-- Calls of `Shell`. -/
def Event.isShell : Event → Bool
  | .Shell _ _ => true
  | _ => false

/-- Calls of `Close`, on anything. -/
def Event.isClose : Event → Bool
  | .SessionClose _ => true
  | .StdinClose _ => true
  | .ConnClose _ => true
  | .WebsocketClose _ => true
  | _ => false

/-- Every step of authentication and of shell setup succeeds, whenever it is
called. -/
def SSHCollab.setupSucceeds (ssh : SSHCollab) : Prop :=
  (∀ h c cfg, ssh.NewClientConn h c cfg = true) ∧ (∀ h, ssh.NewSession h = true) ∧
  (∀ h s, ssh.StdinPipe h s = true) ∧ (∀ h s, ssh.StdoutPipe h s = true) ∧
  (∀ h s, ssh.StderrPipe h s = true) ∧ (∀ h s, ssh.Shell h s = true)

/-- A collaborator whose every call succeeds. -/
def allOk : SSHCollab :=
  { NewClientConn := fun _ _ _ => true
    NewSession := fun _ => true
    StdinPipe := fun _ _ => true
    StdoutPipe := fun _ _ => true
    StderrPipe := fun _ _ => true
    Shell := fun _ _ => true
    Write := fun _ _ _ => true
    WindowChange := fun _ _ _ _ => true }

/-- A collaborator that refuses every client connection. -/
def authFails : SSHCollab :=
  { allOk with NewClientConn := fun _ _ _ => false }

/-- A collaborator whose `StderrPipe` fails and whose other calls succeed. -/
def stderrFails : SSHCollab :=
  { allOk with StderrPipe := fun _ _ => false }

/-- A collaborator whose writes to the stdin pipe fail and whose other calls
succeed. -/
def writeFails : SSHCollab :=
  { allOk with Write := fun _ _ _ => false }

/-- The bytes of "alice". -/
def alice : Bytes := [97, 108, 105, 99, 101]

/-- The bytes of "right". -/
def right : Bytes := [114, 105, 103, 104, 116]

/-- The bytes of "wrong". -/
def wrong : Bytes := [119, 114, 111, 110, 103]

/-- The bytes of "foo". -/
def foo : Bytes := [102, 111, 111]

/-- The bytes of "bar". -/
def bar : Bytes := [98, 97, 114]

/-- The state of a bridge after `login u`, `password p` when authentication and
every setup step succeeded: the first session and its stdin pipe, and the calls
made to get there. -/
def activeState (buffSize : Nat) (w : WebsocketConn) (c : NetConn) (u p : Bytes) :
    State :=
  { config := { User := u, Auth := [p] }
    session := some 0
    stdin := some 0
    defers := [.stdinClose 0, .sessionClose 0, .connClose c, .websocketClose w]
    trace := [.NewClientConn c ⟨u, [p]⟩ true, .NewSession (some 0),
      .RequestPty 0 "xterm" 40 80 buffSize, .StdinPipe 0 true, .StdoutPipe 0 true,
      .StderrPipe 0 true, .GoCopyToMessage messageTypeStdout 0 true,
      .GoCopyToMessage messageTypeStderr 0 true, .Shell 0 true]
    nextSession := 1 }

/-- A collaborator that accepts the single password "right" and nothing else,
and whose other calls succeed. -/
def onlyRight : SSHCollab :=
  { allOk with NewClientConn := fun _ _ cfg => cfg.Auth == [right] }

/-- The state an outcome carries. -/
def Outcome.st : Outcome → State
  | .next st => st
  | .ret _ st => st

/-- The invariant of the loop of `server` for the endpoints `w` and `c`: nothing
has been closed yet, the close of each endpoint is deferred once, the close of a
session is deferred as often as the session was opened, and the sessions opened
are those numbered below `nextSession`, each opened once. -/
def State.closesPending (w : WebsocketConn) (c : NetConn) (st : State) : Prop :=
  st.trace.countP Event.isClose = 0 ∧
  st.defers.count (.websocketClose w) = 1 ∧
  st.defers.count (.connClose c) = 1 ∧
  (∀ s : Nat, st.defers.count (.sessionClose s) = st.trace.count (.NewSession (some s))) ∧
  (∀ s : Nat, st.trace.count (.NewSession (some s)) = if s < st.nextSession then 1 else 0)

/-! ## Session registry: theorems -/

theorem LoadOrStore_absent (store : Store) (id : String) (v : storeValue)
    (h : store.lookup id = none) :
    LoadOrStore store id v = ((id, v) :: store, v, false) := by
  simp [LoadOrStore, h]

theorem LoadOrStore_present (store : Store) (id : String) (v old : storeValue)
    (h : store.lookup id = some old) :
    LoadOrStore store id v = (store, old, true) := by
  simp [LoadOrStore, h]

theorem lookup_cons_self (store : Store) (id : String) (v : storeValue) :
    List.lookup id ((id, v) :: store) = some v := by
  simp [List.lookup]

theorem lookup_cons_other (store : Store) (id k : String) (v : storeValue)
    (h : k ≠ id) : List.lookup id ((k, v) :: store) = store.lookup id := by
  have : (id == k) = false := by simpa using fun e => h e.symm
  simp [List.lookup, this]

theorem AddWebsocket_absent (store : Store) (id : String) (w : WebsocketConn)
    (h : store.lookup id = none) :
    AddWebsocket store id w = ((id, ⟨some w, none⟩) :: store, none) := by
  simp [AddWebsocket, LoadOrStore_absent _ _ _ h]

theorem AddSSHConn_absent (store : Store) (id : String) (c : NetConn)
    (h : store.lookup id = none) :
    AddSSHConn store id c = ((id, ⟨none, some c⟩) :: store, none) := by
  simp [AddSSHConn, LoadOrStore_absent _ _ _ h]

theorem AddWebsocket_present (store : Store) (id : String) (w : WebsocketConn)
    (old : storeValue) (h : store.lookup id = some old) :
    AddWebsocket store id w = (store, some { old with websocket := some w }) := by
  simp [AddWebsocket, LoadOrStore_present _ _ _ _ h]

theorem AddSSHConn_present (store : Store) (id : String) (c : NetConn)
    (old : storeValue) (h : store.lookup id = some old) :
    AddSSHConn store id c = (store, some { old with conn := some c }) := by
  simp [AddSSHConn, LoadOrStore_present _ _ _ _ h]

theorem apply_present (store : Store) (c : Call) (old : storeValue)
    (h : store.lookup c.id = some old) :
    ∃ value, c.apply store = (store, some value) := by
  cases c with
  | addWebsocket id w => exact ⟨_, AddWebsocket_present store id w old h⟩
  | addSSHConn id n => exact ⟨_, AddSSHConn_present store id n old h⟩

theorem apply_absent (store : Store) (c : Call) (h : store.lookup c.id = none) :
    ∃ v, c.apply store = ((c.id, v) :: store, none) := by
  cases c with
  | addWebsocket id w => exact ⟨_, AddWebsocket_absent store id w h⟩
  | addSSHConn id n => exact ⟨_, AddSSHConn_absent store id n h⟩

theorem apply_lookup_other (store : Store) (c : Call) (id : String) (h : c.id ≠ id) :
    List.lookup id (c.apply store).1 = store.lookup id := by
  cases hk : store.lookup c.id with
  | none =>
    obtain ⟨v, hv⟩ := apply_absent store c hk
    rw [hv]
    exact lookup_cons_other store id c.id v h
  | some old =>
    obtain ⟨v, hv⟩ := apply_present store c old hk
    rw [hv]

theorem runCalls_cons (store : Store) (c : Call) (cs : List Call) :
    runCalls store (c :: cs) =
      ((runCalls (c.apply store).1 cs).1,
        (match (c.apply store).2 with
          | some value => [(c.id, value)]
          | none => []) ++ (runCalls (c.apply store).1 cs).2) := by
  simp only [runCalls]
  cases h : (c.apply store).2 <;> simp

theorem launchedFor_append (id : String) (l1 l2 : List (String × storeValue)) :
    launchedFor id (l1 ++ l2) = launchedFor id l1 ++ launchedFor id l2 := by
  simp [launchedFor]

/-- Once a session id has an entry, every call for it starts a bridge. -/
theorem launched_of_present (id : String) (calls : List Call) :
    ∀ (store : Store) (old : storeValue), store.lookup id = some old →
      (launchedFor id (runCalls store calls).2).length =
        (calls.filter (fun c => c.id == id)).length := by
  induction calls with
  | nil => intro store old _; simp [runCalls, launchedFor]
  | cons c cs ih =>
    intro store old h
    rw [runCalls_cons, launchedFor_append, List.length_append]
    by_cases hc : c.id = id
    · have h1 : store.lookup c.id = some old := by rw [hc]; exact h
      obtain ⟨value, hv⟩ := apply_present store c old h1
      rw [hv]
      simp only [List.filter_cons, hc, beq_self_eq_true, if_true, List.length_cons]
      rw [ih store old h]
      simp [launchedFor]
      omega
    · have h1 : List.lookup id (c.apply store).1 = some old := by
        rw [apply_lookup_other store c id hc]; exact h
      have hb : (c.id == id) = false := by simpa using hc
      rw [ih _ old h1]
      simp only [List.filter_cons, hb]
      cases (c.apply store).2 <;> simp [launchedFor, hb]

/-- From a store with no entry for a session id, the bridges started for it are
one fewer than the calls made for it. -/
theorem launched_of_absent (id : String) (calls : List Call) :
    ∀ (store : Store), store.lookup id = none →
      (launchedFor id (runCalls store calls).2).length =
        (calls.filter (fun c => c.id == id)).length - 1 := by
  induction calls with
  | nil => intro store _; simp [runCalls, launchedFor]
  | cons c cs ih =>
    intro store h
    rw [runCalls_cons, launchedFor_append, List.length_append]
    by_cases hc : c.id = id
    · have h1 : store.lookup c.id = none := by rw [hc]; exact h
      obtain ⟨v, hv⟩ := apply_absent store c h1
      rw [hv]
      have h2 : List.lookup id ((c.id, v) :: store) = some v := by
        rw [hc]; exact lookup_cons_self store id v
      simp only [List.filter_cons, hc, beq_self_eq_true, if_true, List.length_cons]
      rw [launched_of_present id cs _ v (by rw [← hc]; rw [← hc] at h2; exact h2)]
      simp [launchedFor]
    · have h1 : List.lookup id (c.apply store).1 = none := by
        rw [apply_lookup_other store c id hc]; exact h
      have hb : (c.id == id) = false := by simpa using hc
      rw [ih _ h1]
      simp only [List.filter_cons, hb]
      cases (c.apply store).2 <;> simp [launchedFor, hb]

/-- C1: from a registry with no entry for `id`, `AddWebsocket id w` and
`AddSSHConn id c`, once each and in either order, start no bridge at the first
call and one bridge at the second, and that bridge is started with the pair of
`w` and `c`. -/
theorem C1_pair_once_each (store : Store) (id : String) (w : WebsocketConn)
    (c : NetConn) (h : store.lookup id = none) :
    ((AddWebsocket store id w).2 = none ∧
      (AddSSHConn (AddWebsocket store id w).1 id c).2 =
        some { websocket := some w, conn := some c } ∧
      (runCalls store [.addWebsocket id w, .addSSHConn id c]).2 =
        [(id, { websocket := some w, conn := some c })]) ∧
    ((AddSSHConn store id c).2 = none ∧
      (AddWebsocket (AddSSHConn store id c).1 id w).2 =
        some { websocket := some w, conn := some c } ∧
      (runCalls store [.addSSHConn id c, .addWebsocket id w]).2 =
        [(id, { websocket := some w, conn := some c })]) := by
  have hw := AddWebsocket_absent store id w h
  have hc := AddSSHConn_absent store id c h
  have hw2 := AddSSHConn_present _ id c _ (lookup_cons_self store id ⟨some w, none⟩)
  have hc2 := AddWebsocket_present _ id w _ (lookup_cons_self store id ⟨none, some c⟩)
  refine ⟨⟨?_, ?_, ?_⟩, ?_, ?_, ?_⟩
  · rw [hw]
  · rw [hw, hw2]
  · simp [runCalls, Call.apply, Call.id, hw, hw2]
  · rw [hc]
  · rw [hc, hc2]
  · simp [runCalls, Call.apply, Call.id, hc, hc2]

/-- C1 at the empty registry, session "s", websocket 7 and connection 9. -/
theorem C1_pair_once_each_witness :
    (([] : Store).lookup "s" = none) ∧
    (runCalls [] [.addWebsocket "s" 7, .addSSHConn "s" 9]).2 =
      [("s", { websocket := some 7, conn := some 9 })] ∧
    (runCalls [] [.addSSHConn "s" 9, .addWebsocket "s" 7]).2 =
      [("s", { websocket := some 7, conn := some 9 })] :=
  ⟨rfl, (C1_pair_once_each [] "s" 7 9 rfl).1.2.2, (C1_pair_once_each [] "s" 7 9 rfl).2.2.2⟩

/-- C2, as stated, fails: session "s" is paired by the first two calls (one
bridge started), and a third call for "s" starts a second bridge. -/
theorem C2_counterexample :
    (runCalls [] [.addWebsocket "s" 1, .addSSHConn "s" 2]).2 =
      [("s", { websocket := some 1, conn := some 2 })] ∧
    (runCalls [] [.addWebsocket "s" 1, .addSSHConn "s" 2, .addSSHConn "s" 3]).2 =
      [("s", { websocket := some 1, conn := some 2 }),
       ("s", { websocket := some 1, conn := some 3 })] ∧
    ¬ (launchedFor "s"
        (runCalls [] [.addWebsocket "s" 1, .addSSHConn "s" 2, .addSSHConn "s" 3]).2).length
        ≤ 1 := by
  decide

/-- C2, amended: for a session id that has an entry in the registry, a further
`AddWebsocket` or `AddSSHConn` leaves the registry as it is and starts one more
bridge, with the stored pair in which the endpoint of the call is put in; from a
registry with no entry for the id, the bridges started for it are the calls made
for it less one. -/
theorem C2_further_call_launches_again (store : Store) (id : String)
    (old : storeValue) (h : store.lookup id = some old) :
    (∀ w, AddWebsocket store id w = (store, some { old with websocket := some w })) ∧
    (∀ c, AddSSHConn store id c = (store, some { old with conn := some c })) ∧
    (∀ calls, (launchedFor id (runCalls store calls).2).length =
        (calls.filter (fun c => c.id == id)).length) ∧
    (∀ (store0 : Store) calls, store0.lookup id = none →
      (launchedFor id (runCalls store0 calls).2).length =
        (calls.filter (fun c => c.id == id)).length - 1) :=
  ⟨fun w => AddWebsocket_present store id w old h,
   fun c => AddSSHConn_present store id c old h,
   fun calls => launched_of_present id calls store old h,
   fun store0 calls h0 => launched_of_absent id calls store0 h0⟩

/-- C2 amended, at the registry holding websocket 1 for session "s": a further
`AddSSHConn` starts a bridge with websocket 1 and connection 3; and from the
empty registry three calls for "s" start two bridges. -/
theorem C2_further_call_launches_again_witness :
    List.lookup "s" ([("s", ⟨some 1, none⟩)] : Store) = some ⟨some 1, none⟩ ∧
    AddSSHConn [("s", ⟨some 1, none⟩)] "s" 3 =
      ([("s", ⟨some 1, none⟩)], some ⟨some 1, some 3⟩) ∧
    List.lookup "s" ([] : Store) = none ∧
    (launchedFor "s"
      (runCalls [] [.addWebsocket "s" 1, .addSSHConn "s" 2, .addSSHConn "s" 3]).2).length =
      ([Call.addWebsocket "s" 1, .addSSHConn "s" 2, .addSSHConn "s" 3].filter
        (fun c => c.id == "s")).length - 1 :=
  ⟨by decide,
   (C2_further_call_launches_again [("s", ⟨some 1, none⟩)] "s" ⟨some 1, none⟩
      (by decide)).2.1 3,
   rfl,
   (C2_further_call_launches_again [("s", ⟨some 1, none⟩)] "s" ⟨some 1, none⟩
      (by decide)).2.2.2 [] _ rfl⟩

/-! ## Session bridge: theorems -/

theorem loop_cons_next (ssh : SSHCollab) (buffSize : Nat) (c : NetConn)
    (m : message) (rest : List message) (st st1 : State)
    (h : body ssh buffSize c m st = .next st1) :
    loop ssh buffSize c (m :: rest) st = (loop ssh buffSize c rest st1).addReads 1 := by
  simp [loop, h]

theorem loop_cons_ret (ssh : SSHCollab) (buffSize : Nat) (c : NetConn)
    (m : message) (rest : List message) (st st1 : State) (e : Error)
    (h : body ssh buffSize c m st = .ret e st1) :
    loop ssh buffSize c (m :: rest) st = { err := e, st := st1, reads := 1 } := by
  simp [loop, h]

theorem addReads_addReads (r : LoopResult) (a b : Nat) :
    (r.addReads a).addReads b = r.addReads (a + b) := by
  simp [LoopResult.addReads, Nat.add_assoc]

theorem addReads_zero (r : LoopResult) : r.addReads 0 = r := by
  simp [LoopResult.addReads]

/-- C3: in every bridge state and for every payload, a `publickey` message makes
the loop of `server` return the error "no support publickey" in that pass of the
loop: the state, and with it the events, are as before the message (no
authentication attempt, no write, no resize), and no further message is read. -/
theorem C3_publickey_fatal (ssh : SSHCollab) (buffSize : Nat) (c : NetConn)
    (st : State) (d : Bytes) (rows cols : Int) (rest : List message) :
    body ssh buffSize c ⟨messageTypePublickey, d, rows, cols⟩ st =
      .ret (.New "no support publickey") st ∧
    loop ssh buffSize c (⟨messageTypePublickey, d, rows, cols⟩ :: rest) st =
      { err := .New "no support publickey", st := st, reads := 1 } := by
  constructor
  · rfl
  · exact loop_cons_ret _ _ _ _ _ _ _ _ rfl

theorem body_premature (ssh : SSHCollab) (buffSize : Nat) (c : NetConn)
    (st : State) (msg : message) (h : premature st msg = true) :
    body ssh buffSize c msg st = .next st := by
  unfold premature at h
  simp only [Bool.or_eq_true, Bool.and_eq_true, beq_iff_eq] at h
  rcases h with ⟨h1, h2⟩ | ⟨h1, h2⟩
  · simp [body, h1, h2]
  · simp [body, h1, h2]

theorem loop_premature (ssh : SSHCollab) (buffSize : Nat) (c : NetConn)
    (st : State) (rest : List message) :
    ∀ ds : List message, (∀ m ∈ ds, premature st m = true) →
      loop ssh buffSize c (ds ++ rest) st =
        (loop ssh buffSize c rest st).addReads ds.length := by
  intro ds
  induction ds with
  | nil => intro _; simp [addReads_zero]
  | cons m ms ih =>
    intro h
    have hm := body_premature ssh buffSize c st m (h m (List.mem_cons_self _ _))
    have hms := ih (fun x hx => h x (List.mem_cons_of_mem _ hx))
    rw [List.cons_append, loop_cons_next _ _ _ _ _ _ _ hm, hms, addReads_addReads,
      List.length_cons]

theorem loop_before_password (ssh : SSHCollab) (buffSize : Nat) (c : NetConn)
    (rest : List message) :
    ∀ (pre : List message) (st : State), st.unauthenticated →
      (∀ m ∈ pre, beforePassword m = true) →
      loop ssh buffSize c (pre ++ rest) st =
        (loop ssh buffSize c (pre.filter isLogin ++ rest) st).addReads
          (pre.filter (fun m => !isLogin m)).length := by
  intro pre
  induction pre with
  | nil => intro st _ _; simp [addReads_zero]
  | cons m ms ih =>
    intro st hst h
    have hm := h m (List.mem_cons_self _ _)
    have hms : ∀ x ∈ ms, beforePassword x = true :=
      fun x hx => h x (List.mem_cons_of_mem _ hx)
    by_cases hl : m.Typ = messageTypeLogin
    · have hb : body ssh buffSize c m st =
          .next { st with config := { st.config with User := m.Data } } := by
        simp [body, hl]
      have hst1 : State.unauthenticated
          { st with config := { st.config with User := m.Data } } := hst
      have hil : isLogin m = true := by simp [isLogin, hl]
      have e1 : List.filter isLogin (m :: ms) = m :: List.filter isLogin ms := by
        simp [List.filter_cons, hil]
      have e2 : List.filter (fun m => !isLogin m) (m :: ms) =
          List.filter (fun m => !isLogin m) ms := by
        simp [List.filter_cons, hil]
      rw [e1, e2, List.cons_append, List.cons_append,
        loop_cons_next _ _ _ _ _ _ _ hb, loop_cons_next _ _ _ _ _ _ _ hb,
        ih _ hst1 hms, addReads_addReads, addReads_addReads, Nat.add_comm]
    · have hp : premature st m = true := by
        unfold beforePassword at hm
        simp only [Bool.or_eq_true, beq_iff_eq] at hm
        unfold premature
        rcases hm with (hm | hm) | hm
        · exact absurd hm hl
        · simp [hm, hst.2]
        · simp [hm, hst.1]
      have hb := body_premature ssh buffSize c st m hp
      have hil : isLogin m = false := by simp [isLogin, hl]
      have e1 : List.filter isLogin (m :: ms) = List.filter isLogin ms := by
        simp [List.filter_cons, hil]
      have e2 : List.filter (fun m => !isLogin m) (m :: ms) =
          m :: List.filter (fun m => !isLogin m) ms := by
        simp [List.filter_cons, hil]
      rw [e1, e2, List.cons_append, loop_cons_next _ _ _ _ _ _ _ hb,
        ih st hst hms, addReads_addReads, List.length_cons]

/-- C4: a `stdin` message read while there is no stdin pipe, and a `resize`
message read while there is no session, is dropped: the pass of the loop ends
with the state (config, handles, events) as it was and without an error, and the
loop reads on.  So from a state with neither handle, a run over `login`, `stdin`
and `resize` messages followed by other messages returns the error and ends in
the state (with the same authentication attempts among its events) of the run
over the `login` messages alone followed by the same other messages, and reads
as many messages more as were dropped. -/
theorem C4_premature_dropped (ssh : SSHCollab) (buffSize : Nat) (c : NetConn)
    (st : State) :
    (∀ d rows cols, st.stdin = none →
      body ssh buffSize c ⟨messageTypeStdin, d, rows, cols⟩ st = .next st) ∧
    (∀ d rows cols, st.session = none →
      body ssh buffSize c ⟨messageTypeResize, d, rows, cols⟩ st = .next st) ∧
    (∀ ds rest, (∀ m ∈ ds, premature st m = true) →
      loop ssh buffSize c (ds ++ rest) st =
        (loop ssh buffSize c rest st).addReads ds.length) ∧
    (∀ pre rest, st.unauthenticated → (∀ m ∈ pre, beforePassword m = true) →
      loop ssh buffSize c (pre ++ rest) st =
        (loop ssh buffSize c (pre.filter isLogin ++ rest) st).addReads
          (pre.filter (fun m => !isLogin m)).length) := by
  refine ⟨?_, ?_, ?_, ?_⟩
  · intro d rows cols h
    exact body_premature ssh buffSize c st _ (by simp [premature, h])
  · intro d rows cols h
    exact body_premature ssh buffSize c st _ (by simp [premature, h])
  · intro ds rest h
    exact loop_premature ssh buffSize c st rest ds h
  · intro pre rest hst h
    exact loop_before_password ssh buffSize c rest pre st hst h

/-- C4 at the fresh state of a bridge: `resize`, `login "alice"`, `stdin "foo"`
and then `password "right"` run as `login "alice"`, `password "right"`, with two
more reads. -/
theorem C4_premature_dropped_witness :
    (initState 1 2).unauthenticated ∧
    (∀ m ∈ ([⟨messageTypeResize, [], 24, 100⟩, ⟨messageTypeLogin, alice, 0, 0⟩,
        ⟨messageTypeStdin, foo, 0, 0⟩] : List message), beforePassword m = true) ∧
    loop allOk 512 2
        ([⟨messageTypeResize, [], 24, 100⟩, ⟨messageTypeLogin, alice, 0, 0⟩,
          ⟨messageTypeStdin, foo, 0, 0⟩] ++ [⟨messageTypePassword, right, 0, 0⟩])
        (initState 1 2) =
      (loop allOk 512 2
        ([⟨messageTypeLogin, alice, 0, 0⟩] ++ [⟨messageTypePassword, right, 0, 0⟩])
        (initState 1 2)).addReads 2 :=
  ⟨by decide, by decide,
   (C4_premature_dropped allOk 512 2 (initState 1 2)).2.2.2
     [⟨messageTypeResize, [], 24, 100⟩, ⟨messageTypeLogin, alice, 0, 0⟩,
       ⟨messageTypeStdin, foo, 0, 0⟩]
     [⟨messageTypePassword, right, 0, 0⟩] (by decide) (by decide)⟩

theorem server_pair (ssh : SSHCollab) (buffSize : Nat) (w : WebsocketConn)
    (c : NetConn) (msgs : List message) :
    server ssh buffSize ⟨some w, some c⟩ msgs =
      some { err := (loop ssh buffSize c msgs (initState w c)).err,
             events := (loop ssh buffSize c msgs (initState w c)).st.trace ++
               (loop ssh buffSize c msgs (initState w c)).st.defers.map Deferred.run,
             reads := (loop ssh buffSize c msgs (initState w c)).reads } := by
  simp [server]

/-- C5: when `server` reads `login u` and then `password p` and the client
connection or the session cannot be established, it returns an error wrapped as
"password" after these two reads, with one authentication attempt, no
`StdinPipe` call, no relay copier started and no `Shell` call, and the
websocket and the network connection are each closed once. -/
theorem C5_auth_failure (ssh : SSHCollab) (buffSize : Nat) (w : WebsocketConn)
    (c : NetConn) (u p : Bytes) (r1 c1 r2 c2 : Int) (rest : List message)
    (hfail : ssh.NewClientConn [] c ⟨u, [p]⟩ = false ∨
      ssh.NewSession [.NewClientConn c ⟨u, [p]⟩ true] = false) :
    ∃ run e,
      server ssh buffSize ⟨some w, some c⟩
        (⟨messageTypeLogin, u, r1, c1⟩ :: ⟨messageTypePassword, p, r2, c2⟩ :: rest) =
        some run ∧
      run.err = .Wrap e "password" ∧ run.reads = 2 ∧
      run.events.countP Event.isAuthAttempt = 1 ∧
      run.events.countP Event.isStdinPipe = 0 ∧
      run.events.countP Event.isGoCopy = 0 ∧
      run.events.countP Event.isShell = 0 ∧
      run.events.count (.WebsocketClose w) = 1 ∧
      run.events.count (.ConnClose c) = 1 ∧
      run.events.countP Event.isClose = 2 := by
  by_cases h1 : ssh.NewClientConn [] c ⟨u, [p]⟩ = true
  · have h2 : ssh.NewSession [.NewClientConn c ⟨u, [p]⟩ true] = false := by
      rcases hfail with h | h
      · rw [h1] at h; cases h
      · exact h
    refine ⟨{ err := .Wrap (.Wrap (.collab "NewSession") "session") "password",
              events := [.NewClientConn c ⟨u, [p]⟩ true, .NewSession none,
                .ConnClose c, .WebsocketClose w],
              reads := 2 }, _, ?_, rfl, rfl, ?_, ?_, ?_, ?_, ?_, ?_, ?_⟩
    · simp [server, loop, body, onPassword, newSSHXtermSession, State.log, initState,
        LoopResult.addReads, Deferred.run, h1, h2]
    all_goals simp [List.countP_cons, List.count_cons, Event.isAuthAttempt,
      Event.isStdinPipe, Event.isGoCopy, Event.isShell, Event.isClose]
  · have h1f : ssh.NewClientConn [] c ⟨u, [p]⟩ = false := by simpa using h1
    refine ⟨{ err := .Wrap (.Wrap (.collab "NewClientConn") "client") "password",
              events := [.NewClientConn c ⟨u, [p]⟩ false, .ConnClose c,
                .WebsocketClose w],
              reads := 2 }, _, ?_, rfl, rfl, ?_, ?_, ?_, ?_, ?_, ?_, ?_⟩
    · simp [server, loop, body, onPassword, newSSHXtermSession, State.log, initState,
        LoopResult.addReads, Deferred.run, h1f]
    all_goals simp [List.countP_cons, List.count_cons, Event.isAuthAttempt,
      Event.isStdinPipe, Event.isGoCopy, Event.isShell, Event.isClose]

/-- C5 for `login "alice"`, `password "wrong"` and a collaborator that refuses
the connection. -/
theorem C5_auth_failure_witness :
    (authFails.NewClientConn [] 2 ⟨alice, [wrong]⟩ = false ∨
      authFails.NewSession [.NewClientConn 2 ⟨alice, [wrong]⟩ true] = false) ∧
    ∃ run e,
      server authFails 512 ⟨some 1, some 2⟩
        (⟨messageTypeLogin, alice, 0, 0⟩ :: ⟨messageTypePassword, wrong, 0, 0⟩ :: []) =
        some run ∧
      run.err = .Wrap e "password" ∧ run.reads = 2 ∧
      run.events.countP Event.isAuthAttempt = 1 ∧
      run.events.countP Event.isStdinPipe = 0 ∧
      run.events.countP Event.isGoCopy = 0 ∧
      run.events.countP Event.isShell = 0 ∧
      run.events.count (.WebsocketClose 1) = 1 ∧
      run.events.count (.ConnClose 2) = 1 ∧
      run.events.countP Event.isClose = 2 :=
  ⟨Or.inl rfl, C5_auth_failure authFails 512 1 2 alice wrong 0 0 0 0 [] (Or.inl rfl)⟩

theorem onPassword_setupSucceeds (ssh : SSHCollab) (buffSize : Nat) (c : NetConn)
    (st : State) (msg : message) (hok : ssh.setupSucceeds) :
    onPassword ssh buffSize c msg st =
      .next { config := ⟨st.config.User, st.config.Auth ++ [msg.Data]⟩
              session := some st.nextSession
              stdin := some st.nextSession
              defers := .stdinClose st.nextSession :: .sessionClose st.nextSession ::
                st.defers
              trace := st.trace ++
                [.NewClientConn c ⟨st.config.User, st.config.Auth ++ [msg.Data]⟩ true,
                 .NewSession (some st.nextSession),
                 .RequestPty st.nextSession "xterm" 40 80 buffSize,
                 .StdinPipe st.nextSession true, .StdoutPipe st.nextSession true,
                 .StderrPipe st.nextSession true,
                 .GoCopyToMessage messageTypeStdout st.nextSession true,
                 .GoCopyToMessage messageTypeStderr st.nextSession true,
                 .Shell st.nextSession true]
              nextSession := st.nextSession + 1 } := by
  obtain ⟨h1, h2, h3, h4, h5, h6⟩ := hok
  simp [onPassword, newSSHXtermSession, transferOutput, State.log, State.defer,
    h1, h2, h3, h4, h5, h6]

theorem loop_login_password (ssh : SSHCollab) (buffSize : Nat) (w : WebsocketConn)
    (c : NetConn) (u p : Bytes) (r1 c1 r2 c2 : Int) (rest : List message)
    (hok : ssh.setupSucceeds) :
    loop ssh buffSize c
        (⟨messageTypeLogin, u, r1, c1⟩ :: ⟨messageTypePassword, p, r2, c2⟩ :: rest)
        (initState w c) =
      (loop ssh buffSize c rest (activeState buffSize w c u p)).addReads 2 := by
  have hb1 : body ssh buffSize c ⟨messageTypeLogin, u, r1, c1⟩ (initState w c) =
      .next { initState w c with config := ⟨u, []⟩ } := rfl
  have hb2 : body ssh buffSize c ⟨messageTypePassword, p, r2, c2⟩
      { initState w c with config := ⟨u, []⟩ } =
      .next (activeState buffSize w c u p) := by
    show onPassword ssh buffSize c _ _ = _
    rw [onPassword_setupSucceeds _ _ _ _ _ hok]
    simp [initState, activeState]
  rw [loop_cons_next _ _ _ _ _ _ _ hb1, loop_cons_next _ _ _ _ _ _ _ hb2,
    addReads_addReads]

theorem body_stdin_some (ssh : SSHCollab) (buffSize : Nat) (c : NetConn)
    (st : State) (h : Nat) (d : Bytes) (rows cols : Int)
    (hs : st.stdin = some h) :
    body ssh buffSize c ⟨messageTypeStdin, d, rows, cols⟩ st =
      (if ssh.Write st.trace h d = true then .next (st.log (.Write h d true))
       else .ret (.Wrap (.collab "Write") "write") (st.log (.Write h d false))) := by
  cases hw : ssh.Write st.trace h d <;> simp [body, hs, hw]

/-- C6: when `server` has read `login u` and `password p` and authentication and
every setup step succeeded, the bridge holds the first session and its stdin
pipe, and reading `stdin d` makes one call of `Write`, on that pipe and with
exactly `d`, and nothing else; when that write fails `server` returns an error
wrapped as "write" without reading on. -/
theorem C6_stdin_verbatim (ssh : SSHCollab) (buffSize : Nat) (w : WebsocketConn)
    (c : NetConn) (u p d : Bytes) (r1 c1 r2 c2 r3 c3 : Int)
    (hok : ssh.setupSucceeds) :
    (loop ssh buffSize c
        [⟨messageTypeLogin, u, r1, c1⟩, ⟨messageTypePassword, p, r2, c2⟩]
        (initState w c)).st = activeState buffSize w c u p ∧
    (activeState buffSize w c u p).stdin = some 0 ∧
    body ssh buffSize c ⟨messageTypeStdin, d, r3, c3⟩ (activeState buffSize w c u p) =
      (if ssh.Write (activeState buffSize w c u p).trace 0 d = true then
        .next ((activeState buffSize w c u p).log (.Write 0 d true))
      else
        .ret (.Wrap (.collab "Write") "write")
          ((activeState buffSize w c u p).log (.Write 0 d false))) ∧
    (∃ run ok,
      server ssh buffSize ⟨some w, some c⟩
        [⟨messageTypeLogin, u, r1, c1⟩, ⟨messageTypePassword, p, r2, c2⟩,
         ⟨messageTypeStdin, d, r3, c3⟩] = some run ∧
      run.events.filter Event.isWrite = [.Write 0 d ok]) ∧
    (ssh.Write (activeState buffSize w c u p).trace 0 d = false →
      ∀ rest, ∃ run,
        server ssh buffSize ⟨some w, some c⟩
          (⟨messageTypeLogin, u, r1, c1⟩ :: ⟨messageTypePassword, p, r2, c2⟩ ::
           ⟨messageTypeStdin, d, r3, c3⟩ :: rest) = some run ∧
        run.err = .Wrap (.collab "Write") "write" ∧ run.reads = 3 ∧
        run.events.filter Event.isWrite = [.Write 0 d false]) := by
  have hbody := body_stdin_some ssh buffSize c (activeState buffSize w c u p) 0 d
    r3 c3 rfl
  refine ⟨?_, rfl, hbody, ?_, ?_⟩
  · rw [loop_login_password _ _ _ _ _ _ _ _ _ _ _ hok]
    simp [loop, LoopResult.addReads]
  · refine ⟨_, ssh.Write (activeState buffSize w c u p).trace 0 d,
      server_pair _ _ _ _ _, ?_⟩
    rw [loop_login_password _ _ _ _ _ _ _ _ _ _ _ hok]
    cases hw : ssh.Write (activeState buffSize w c u p).trace 0 d
    · rw [hw] at hbody
      rw [loop_cons_ret _ _ _ _ _ _ _ _ hbody]
      simp [LoopResult.addReads, State.log, activeState, Deferred.run, List.filter_cons,
        Event.isWrite]
    · rw [hw] at hbody
      rw [loop_cons_next _ _ _ _ _ _ _ hbody]
      simp [loop, LoopResult.addReads, State.log, activeState, Deferred.run,
        List.filter_cons, Event.isWrite]
  · intro hw rest
    refine ⟨_, server_pair _ _ _ _ _, ?_⟩
    rw [loop_login_password _ _ _ _ _ _ _ _ _ _ _ hok]
    rw [hw] at hbody
    rw [loop_cons_ret _ _ _ _ _ _ _ _ hbody]
    simp [LoopResult.addReads, State.log, activeState, Deferred.run, List.filter_cons,
      Event.isWrite]

theorem allOk_setupSucceeds : allOk.setupSucceeds :=
  ⟨fun _ _ _ => rfl, fun _ => rfl, fun _ _ => rfl, fun _ _ => rfl, fun _ _ => rfl,
   fun _ _ => rfl⟩

theorem writeFails_setupSucceeds : writeFails.setupSucceeds :=
  ⟨fun _ _ _ => rfl, fun _ => rfl, fun _ _ => rfl, fun _ _ => rfl, fun _ _ => rfl,
   fun _ _ => rfl⟩

/-- C6 for `login "alice"`, `password "right"`, `stdin "foo"`: with a
collaborator whose calls all succeed the pass of the loop for `stdin "foo"` adds
the one event `Write 0 "foo"`; with one whose writes fail `server` returns the
"write" error at the third read. -/
theorem C6_stdin_verbatim_witness :
    allOk.setupSucceeds ∧ writeFails.setupSucceeds ∧
    body allOk 512 2 ⟨messageTypeStdin, foo, 0, 0⟩ (activeState 512 1 2 alice right) =
      .next ((activeState 512 1 2 alice right).log (.Write 0 foo true)) ∧
    (writeFails.Write (activeState 512 1 2 alice right).trace 0 foo = false →
      ∀ rest, ∃ run,
        server writeFails 512 ⟨some 1, some 2⟩
          (⟨messageTypeLogin, alice, 0, 0⟩ :: ⟨messageTypePassword, right, 0, 0⟩ ::
           ⟨messageTypeStdin, foo, 0, 0⟩ :: rest) = some run ∧
        run.err = .Wrap (.collab "Write") "write" ∧ run.reads = 3 ∧
        run.events.filter Event.isWrite = [.Write 0 foo false]) :=
  ⟨allOk_setupSucceeds, writeFails_setupSucceeds,
   (C6_stdin_verbatim allOk 512 1 2 alice right foo 0 0 0 0 0 0
      allOk_setupSucceeds).2.2.1,
   (C6_stdin_verbatim writeFails 512 1 2 alice right foo 0 0 0 0 0 0
      writeFails_setupSucceeds).2.2.2.2⟩

/-- C7 fails on the code: when `StderrPipe` fails (and the other calls succeed)
`transferOutput` returns no error, and `server`, reading `login "alice"` and
`password "right"`, starts the copier for standard error on a nil reader, calls
`Shell`, stays in its loop and returns only when the next `ReadJSON` fails, with
the error of that read. -/
theorem C7_stderr_failure_unreported :
    (∀ (s : Nat) (st : State), (transferOutput stderrFails s st).1 = none) ∧
    server stderrFails 512 ⟨some 1, some 2⟩
        [⟨messageTypeLogin, alice, 0, 0⟩, ⟨messageTypePassword, right, 0, 0⟩] =
      some { err := .Wrap (.collab "ReadJSON") "login"
             events := [.NewClientConn 2 ⟨alice, [right]⟩ true, .NewSession (some 0),
               .RequestPty 0 "xterm" 40 80 512, .StdinPipe 0 true, .StdoutPipe 0 true,
               .StderrPipe 0 false, .GoCopyToMessage messageTypeStdout 0 true,
               .GoCopyToMessage messageTypeStderr 0 false, .Shell 0 true,
               .StdinClose 0, .SessionClose 0, .ConnClose 2, .WebsocketClose 1]
             reads := 3 } := by
  constructor
  · intro s st; rfl
  · decide

/-- C8, as stated, fails: the bridge is Active after `login "alice"` and
`password "right"`; a further `login "foo"` changes the config, and a further
`password "wrong"` changes the config, makes a second authentication attempt,
starts two more relay copiers and replaces both handles. -/
theorem C8_counterexample :
    (loop allOk 512 2
        [⟨messageTypeLogin, alice, 0, 0⟩, ⟨messageTypePassword, right, 0, 0⟩]
        (initState 1 2)).st = activeState 512 1 2 alice right ∧
    body allOk 512 2 ⟨messageTypeLogin, foo, 0, 0⟩ (activeState 512 1 2 alice right) =
      .next { activeState 512 1 2 alice right with config := ⟨foo, [right]⟩ } ∧
    body allOk 512 2 ⟨messageTypePassword, wrong, 0, 0⟩
        (activeState 512 1 2 alice right) =
      .next { config := ⟨alice, [right, wrong]⟩
              session := some 1
              stdin := some 1
              defers := [.stdinClose 1, .sessionClose 1, .stdinClose 0, .sessionClose 0,
                .connClose 2, .websocketClose 1]
              trace := (activeState 512 1 2 alice right).trace ++
                [.NewClientConn 2 ⟨alice, [right, wrong]⟩ true, .NewSession (some 1),
                 .RequestPty 1 "xterm" 40 80 512, .StdinPipe 1 true, .StdoutPipe 1 true,
                 .StderrPipe 1 true, .GoCopyToMessage messageTypeStdout 1 true,
                 .GoCopyToMessage messageTypeStderr 1 true, .Shell 1 true]
              nextSession := 2 } ∧
    ¬ (body allOk 512 2 ⟨messageTypePassword, wrong, 0, 0⟩
        (activeState 512 1 2 alice right) =
      .next (activeState 512 1 2 alice right)) ∧
    ¬ (body allOk 512 2 ⟨messageTypeLogin, foo, 0, 0⟩
        (activeState 512 1 2 alice right) =
      .next (activeState 512 1 2 alice right)) := by
  decide

/-- C8, amended: in every state of the bridge, so also once it is Active, a
`login` message is accepted and only replaces the user name of the config (no
call on a collaborator, both handles as before); a `password` message appends
its credential to the config and makes a new authentication attempt with the
config so far: when the client connection fails `server` returns the error
wrapped as "client" and "password", and when authentication and every setup step
succeed a new session is set up, its relay copiers are started and the session
and stdin handles are those of the new session. -/
theorem C8_relogin_reauthenticates (ssh : SSHCollab) (buffSize : Nat) (c : NetConn)
    (st : State) (d : Bytes) (rows cols : Int) :
    body ssh buffSize c ⟨messageTypeLogin, d, rows, cols⟩ st =
      .next { st with config := ⟨d, st.config.Auth⟩ } ∧
    (ssh.NewClientConn st.trace c ⟨st.config.User, st.config.Auth ++ [d]⟩ = false →
      body ssh buffSize c ⟨messageTypePassword, d, rows, cols⟩ st =
        .ret (.Wrap (.Wrap (.collab "NewClientConn") "client") "password")
          { st with
            config := ⟨st.config.User, st.config.Auth ++ [d]⟩
            session := none
            trace := st.trace ++
              [.NewClientConn c ⟨st.config.User, st.config.Auth ++ [d]⟩ false] }) ∧
    (ssh.setupSucceeds →
      body ssh buffSize c ⟨messageTypePassword, d, rows, cols⟩ st =
        .next { config := ⟨st.config.User, st.config.Auth ++ [d]⟩
                session := some st.nextSession
                stdin := some st.nextSession
                defers := .stdinClose st.nextSession :: .sessionClose st.nextSession ::
                  st.defers
                trace := st.trace ++
                  [.NewClientConn c ⟨st.config.User, st.config.Auth ++ [d]⟩ true,
                   .NewSession (some st.nextSession),
                   .RequestPty st.nextSession "xterm" 40 80 buffSize,
                   .StdinPipe st.nextSession true, .StdoutPipe st.nextSession true,
                   .StderrPipe st.nextSession true,
                   .GoCopyToMessage messageTypeStdout st.nextSession true,
                   .GoCopyToMessage messageTypeStderr st.nextSession true,
                   .Shell st.nextSession true]
                nextSession := st.nextSession + 1 }) := by
  refine ⟨rfl, ?_, ?_⟩
  · intro h
    simp [body, onPassword, newSSHXtermSession, State.log, h]
  · intro hok
    exact onPassword_setupSucceeds ssh buffSize c st ⟨messageTypePassword, d, rows, cols⟩ hok

/-- C8 amended, at the Active state reached by `login "alice"`, `password
"right"`: with the collaborator that accepts the password "right" alone a
further `password "wrong"` makes an attempt with both passwords, which is
refused, and `server` returns; with the collaborator whose calls all succeed it
sets up a second session. -/
theorem C8_relogin_reauthenticates_witness :
    (loop onlyRight 512 2
        [⟨messageTypeLogin, alice, 0, 0⟩, ⟨messageTypePassword, right, 0, 0⟩]
        (initState 1 2)).st = activeState 512 1 2 alice right ∧
    onlyRight.NewClientConn (activeState 512 1 2 alice right).trace 2
        ⟨alice, [right] ++ [wrong]⟩ = false ∧
    body onlyRight 512 2 ⟨messageTypePassword, wrong, 0, 0⟩
        (activeState 512 1 2 alice right) =
      .ret (.Wrap (.Wrap (.collab "NewClientConn") "client") "password")
        { activeState 512 1 2 alice right with
          config := ⟨alice, [right] ++ [wrong]⟩
          session := none
          trace := (activeState 512 1 2 alice right).trace ++
            [.NewClientConn 2 ⟨alice, [right] ++ [wrong]⟩ false] } ∧
    allOk.setupSucceeds ∧
    (body allOk 512 2 ⟨messageTypePassword, wrong, 0, 0⟩
        (activeState 512 1 2 alice right)).st.session = some 1 :=
  ⟨by decide, by decide,
   (C8_relogin_reauthenticates onlyRight 512 2 (activeState 512 1 2 alice right)
      wrong 0 0).2.1 (by decide),
   allOk_setupSucceeds,
   congrArg (fun o => o.st.session)
     ((C8_relogin_reauthenticates allOk 512 2 (activeState 512 1 2 alice right)
        wrong 0 0).2.2 allOk_setupSucceeds)⟩

/-! ## Output relay: theorems -/

theorem Read_ok (b buff : Bytes) (h : b.length ≤ buff.length) :
    Read ⟨b, false⟩ buff = (b.length, false, b ++ buff.drop b.length) := by
  simp [Read, Nat.min_eq_left h, List.take_of_length_le]

theorem copyToMessageLoop_chunks (writeJSON : List (message × Bool) → message → Bool)
    (t : messageType) (hw : ∀ sent msg, writeJSON sent msg = true) :
    ∀ (chunks : List Bytes) (buff : Bytes) (sent : List (message × Bool)),
      (∀ b ∈ chunks, b.length ≤ buff.length) →
      copyToMessageLoop writeJSON t (chunks.map (fun b => ⟨b, false⟩)) buff sent =
        sent ++ chunks.map (fun b => (⟨t, b, 0, 0⟩, true)) := by
  intro chunks
  induction chunks with
  | nil => intro buff sent _; simp [copyToMessageLoop]
  | cons b bs ih =>
    intro buff sent h
    have hb : b.length ≤ buff.length := h b (List.mem_cons_self _ _)
    have hlen : (b ++ buff.drop b.length).length = buff.length := by
      simp only [List.length_append, List.length_drop]; omega
    have hbs : ∀ x ∈ bs, x.length ≤ (b ++ buff.drop b.length).length := by
      intro x hx; rw [hlen]; exact h x (List.mem_cons_of_mem _ hx)
    simp only [List.map_cons, copyToMessageLoop, Read_ok b buff hb, hw]
    simp [ih _ _ hbs]

/-- C9: when the reads from a stream of the shell succeed with chunks `b1..bk`,
each no longer than the buffer, and every write to the transport succeeds, the
relay copier of type `t` (`stdout` or `stderr`) makes exactly `k` calls of
`WriteJSON`, in the order of the reads, the i-th with the envelope of type `t`
whose data is exactly `bi`. -/
theorem C9_relay_preserves_chunks (writeJSON : List (message × Bool) → message → Bool)
    (buffSize : Nat) (t : messageType) (chunks : List Bytes)
    (hlen : ∀ b ∈ chunks, b.length ≤ buffSize)
    (hw : ∀ sent msg, writeJSON sent msg = true) :
    copyToMessage writeJSON buffSize t (chunks.map (fun b => ⟨b, false⟩)) =
      chunks.map (fun b => (⟨t, b, 0, 0⟩, true)) := by
  unfold copyToMessage
  rw [copyToMessageLoop_chunks writeJSON t hw chunks _ []
    (by simpa using hlen)]
  simp

/-- C9 for the chunks "foo" then "bar" on standard output with the default
buffer of 512 bytes: the transport receives `stdout "foo"` then `stdout "bar"`. -/
theorem C9_relay_preserves_chunks_witness :
    (∀ b ∈ [foo, bar], b.length ≤ 512) ∧
    (∀ (sent : List (message × Bool)) (msg : message),
      (fun _ _ => true) sent msg = true) ∧
    copyToMessage (fun _ _ => true) 512 messageTypeStdout
        [⟨foo, false⟩, ⟨bar, false⟩] =
      [(⟨messageTypeStdout, foo, 0, 0⟩, true), (⟨messageTypeStdout, bar, 0, 0⟩, true)] :=
  ⟨by decide, fun _ _ => rfl,
   C9_relay_preserves_chunks (fun _ _ => true) 512 messageTypeStdout [foo, bar]
     (by decide) (fun _ _ => rfl)⟩

/-! ## Cleanup: theorems -/

theorem initState_closesPending (w : WebsocketConn) (c : NetConn) :
    (initState w c).closesPending w c := by
  simp [State.closesPending, initState, List.count_cons]

theorem closesPending_log (w : WebsocketConn) (c : NetConn) (st : State)
    (e : Event) (h : st.closesPending w c) (he : e.isClose = false)
    (hn : ∀ s, e ≠ .NewSession (some s)) : (st.log e).closesPending w c := by
  obtain ⟨h1, h2, h3, h4, h5⟩ := h
  refine ⟨?_, h2, h3, ?_, ?_⟩
  · simp [State.log, List.countP_append, h1, he]
  · intro s
    have : (e == Event.NewSession (some s)) = false := by simpa using hn s
    simp [State.log, List.count_append, List.count_cons, h4 s, this]
  · intro s
    have : (e == Event.NewSession (some s)) = false := by simpa using hn s
    simp [State.log, List.count_append, List.count_cons, h5 s, this]

theorem closesPending_extend (w : WebsocketConn) (c : NetConn) (st st1 : State)
    (evs : List Event) (ds : List Deferred) (k : Nat)
    (h : st.closesPending w c)
    (ht : st1.trace = st.trace ++ evs) (hd : st1.defers = ds ++ st.defers)
    (hk : st1.nextSession = st.nextSession + k)
    (hc : evs.countP Event.isClose = 0)
    (hw : ds.count (.websocketClose w) = 0) (hn : ds.count (.connClose c) = 0)
    (hs : ∀ s : Nat, ds.count (.sessionClose s) = evs.count (.NewSession (some s)))
    (he : ∀ s : Nat, evs.count (.NewSession (some s)) =
      if st.nextSession ≤ s ∧ s < st.nextSession + k then 1 else 0) :
    st1.closesPending w c := by
  obtain ⟨h1, h2, h3, h4, h5⟩ := h
  refine ⟨?_, ?_, ?_, ?_, ?_⟩
  · rw [ht, List.countP_append, h1, hc]
  · rw [hd, List.count_append, h2, hw]
  · rw [hd, List.count_append, h3, hn]
  · intro s
    rw [hd, ht, List.count_append, List.count_append, h4 s, hs s, Nat.add_comm]
  · intro s
    rw [ht, List.count_append, h5 s, he s, hk]
    by_cases a1 : s < st.nextSession
    · have a2 : ¬ (st.nextSession ≤ s ∧ s < st.nextSession + k) := by omega
      have a3 : s < st.nextSession + k := by omega
      simp [a1, a2, a3]
    · by_cases a3 : s < st.nextSession + k
      · have a2 : st.nextSession ≤ s ∧ s < st.nextSession + k := by omega
        simp [a1, a2, a3]
      · have a2 : ¬ (st.nextSession ≤ s ∧ s < st.nextSession + k) := by omega
        simp [a1, a2, a3]

theorem onPassword_closesPending (ssh : SSHCollab) (buffSize : Nat)
    (w : WebsocketConn) (c : NetConn) (msg : message) (st : State)
    (h : st.closesPending w c) :
    (onPassword ssh buffSize c msg st).st.closesPending w c := by
  simp only [onPassword, newSSHXtermSession, transferOutput, State.log, State.defer]
  generalize ssh.NewClientConn _ _ _ = b1
  cases b1
  · simp only [Bool.not_false, if_true, Outcome.st]
    refine closesPending_extend w c st _ ?_ [] 0 h ?_ rfl rfl ?_ ?_ ?_ ?_ ?_
    swap
    · simp only [List.append_assoc, List.singleton_append, List.cons_append,
        List.nil_append]
      exact rfl
    all_goals simp [Event.isClose, List.count_cons]
    intro s
    split_ifs <;> omega
  · simp only [Bool.not_true, Bool.false_eq_true, if_false]
    generalize ssh.NewSession _ = b2
    cases b2
    · simp only [Bool.not_false, if_true, Outcome.st]
      refine closesPending_extend w c st _ ?_ [] 0 h ?_ rfl rfl ?_ ?_ ?_ ?_ ?_
      swap
      · simp only [List.append_assoc, List.singleton_append, List.cons_append,
          List.nil_append]
        exact rfl
      all_goals simp [Event.isClose, List.count_cons]
      intro s
      split_ifs <;> omega
    · simp only [Bool.not_true, Bool.false_eq_true, if_false]
      generalize ssh.StdinPipe _ _ = b3
      cases b3
      · simp only [Bool.not_false, if_true, Outcome.st]
        refine closesPending_extend w c st _ ?_ [.sessionClose st.nextSession] 1 h ?_ rfl rfl ?_ ?_ ?_ ?_ ?_
        swap
        · simp only [List.append_assoc, List.singleton_append, List.cons_append,
            List.nil_append]
          exact rfl
        all_goals simp [Event.isClose, List.count_cons]
        intro s
        split_ifs <;> omega
      · simp only [Bool.not_true, Bool.false_eq_true, if_false]
        generalize ssh.StdoutPipe _ _ = b4
        cases b4
        · simp only [Bool.not_false, if_true, Outcome.st]
          refine closesPending_extend w c st _ ?_ [.stdinClose st.nextSession, .sessionClose st.nextSession] 1 h ?_ rfl rfl ?_ ?_ ?_ ?_ ?_
          swap
          · simp only [List.append_assoc, List.singleton_append, List.cons_append,
              List.nil_append]
            exact rfl
          all_goals simp [Event.isClose, List.count_cons]
          intro s
          split_ifs <;> omega
        · simp only [Bool.not_true, Bool.false_eq_true, if_false]
          generalize ssh.StderrPipe _ _ = b5
          generalize ssh.Shell _ _ = b6
          cases b6
          · simp only [Bool.not_false, if_true, Outcome.st]
            refine closesPending_extend w c st _ ?_ [.stdinClose st.nextSession, .sessionClose st.nextSession] 1 h ?_ rfl rfl ?_ ?_ ?_ ?_ ?_
            swap
            · simp only [List.append_assoc, List.singleton_append, List.cons_append,
                List.nil_append]
              exact rfl
            all_goals simp [Event.isClose, List.count_cons]
            intro s
            split_ifs <;> omega
          · simp only [Bool.not_true, Bool.false_eq_true, if_false, Outcome.st]
            refine closesPending_extend w c st _ ?_ [.stdinClose st.nextSession, .sessionClose st.nextSession] 1 h ?_ rfl rfl ?_ ?_ ?_ ?_ ?_
            swap
            · simp only [List.append_assoc, List.singleton_append, List.cons_append,
                List.nil_append]
              exact rfl
            all_goals simp [Event.isClose, List.count_cons]
            intro s
            split_ifs <;> omega

theorem body_closesPending (ssh : SSHCollab) (buffSize : Nat)
    (w : WebsocketConn) (c : NetConn) (msg : message) (st : State)
    (h : st.closesPending w c) :
    (body ssh buffSize c msg st).st.closesPending w c := by
  unfold body
  cases msg.Typ with
  | messageTypeLogin => exact h
  | messageTypePassword => exact onPassword_closesPending ssh buffSize w c msg st h
  | messageTypePublickey => exact h
  | messageTypeStdin =>
    cases hs : st.stdin with
    | none => simpa [hs, Outcome.st] using h
    | some p =>
      have := closesPending_log w c st (.Write p msg.Data (ssh.Write st.trace p msg.Data))
        h rfl (fun s => by simp)
      cases hw : ssh.Write st.trace p msg.Data <;>
        simpa [hs, hw, Outcome.st] using this
  | messageTypeResize =>
    cases hs : st.session with
    | none => simpa [hs, Outcome.st] using h
    | some p =>
      have := closesPending_log w c st
        (.WindowChange p msg.Rows msg.Cols (ssh.WindowChange st.trace p msg.Rows msg.Cols))
        h rfl (fun s => by simp)
      cases hw : ssh.WindowChange st.trace p msg.Rows msg.Cols <;>
        simpa [hs, hw, Outcome.st] using this
  | messageTypeStdout => exact h
  | messageTypeStderr => exact h

theorem loop_closesPending (ssh : SSHCollab) (buffSize : Nat)
    (w : WebsocketConn) (c : NetConn) :
    ∀ (msgs : List message) (st : State), st.closesPending w c →
      (loop ssh buffSize c msgs st).st.closesPending w c := by
  intro msgs
  induction msgs with
  | nil => intro st h; exact h
  | cons m ms ih =>
    intro st h
    have hb := body_closesPending ssh buffSize w c m st h
    cases hout : body ssh buffSize c m st with
    | next st1 =>
      rw [hout] at hb
      rw [loop_cons_next _ _ _ _ _ _ _ hout]
      exact ih st1 hb
    | ret e st1 =>
      rw [hout] at hb
      rw [loop_cons_ret _ _ _ _ _ _ _ _ hout]
      exact hb

theorem count_map_run (d : Deferred) (ds : List Deferred) :
    (ds.map Deferred.run).count d.run = ds.count d := by
  induction ds with
  | nil => rfl
  | cons x xs ih =>
    have : (x.run == d.run) = (x == d) := by
      cases x <;> cases d <;> simp [Deferred.run]
    simp [List.count_cons, ih, this]

/-- C10: on every finite sequence of messages and with every behaviour of the
SSH collaborator `server` returns, and among the calls it has made by then the
websocket is closed exactly once, the network connection is closed exactly
once, and every session that was opened during the run is closed exactly
once. -/
theorem C10_cleanup_exactly_once (ssh : SSHCollab) (buffSize : Nat)
    (w : WebsocketConn) (c : NetConn) (msgs : List message) :
    ∃ run, server ssh buffSize ⟨some w, some c⟩ msgs = some run ∧
      run.events.count (.WebsocketClose w) = 1 ∧
      run.events.count (.ConnClose c) = 1 ∧
      ∀ s : Nat, .NewSession (some s) ∈ run.events →
        run.events.count (.SessionClose s) = 1 := by
  refine ⟨_, server_pair ssh buffSize w c msgs, ?_⟩
  obtain ⟨h1, h2, h3, h4, h5⟩ :=
    loop_closesPending ssh buffSize w c msgs _ (initState_closesPending w c)
  have hnone : ∀ e : Event, e.isClose = true →
      (loop ssh buffSize c msgs (initState w c)).st.trace.count e = 0 := by
    intro e he
    rw [List.count_eq_zero]
    intro hmem
    have := List.countP_eq_zero.mp h1 e hmem
    exact this he
  refine ⟨?_, ?_, ?_⟩
  · show List.count _ (_ ++ _) = 1
    rw [List.count_append, hnone _ (by rfl)]
    rw [show Event.WebsocketClose w = (Deferred.websocketClose w).run from rfl,
      count_map_run, h2]
  · show List.count _ (_ ++ _) = 1
    rw [List.count_append, hnone _ (by rfl)]
    rw [show Event.ConnClose c = (Deferred.connClose c).run from rfl,
      count_map_run, h3]
  · intro s hs
    show List.count _ (_ ++ _) = 1
    rw [List.count_append, hnone _ (by rfl)]
    rw [show Event.SessionClose s = (Deferred.sessionClose s).run from rfl,
      count_map_run, h4 s]
    have hs1 : Event.NewSession (some s) ∈
        (loop ssh buffSize c msgs (initState w c)).st.trace := by
      rcases List.mem_append.mp hs with hm | hm
      · exact hm
      · obtain ⟨d, _, hd⟩ := List.mem_map.mp hm
        cases d <;> simp [Deferred.run] at hd
    have hpos : 0 < List.count (Event.NewSession (some s))
        (loop ssh buffSize c msgs (initState w c)).st.trace := List.count_pos_iff.mpr hs1
    have := h5 s
    split_ifs at this <;> omega

end WebSSH
